import Mathlib

/-!
Verification of the demo-generator provisioning pipeline.

Shallow embedding of the Python sources:
  - `utils.py` (`save_payload_to_file` directory routing),
  - `create_org.py` (`main`: staged pipeline with progress aggregation),
  - `devrev_objects.py` (`create_devusers`, `create_accounts`, `create_revusers`,
    `create_trails`, `create_tickets`, `create_issues`, `create_opportunities`,
    `create_opportunities_payload`, `clean_org`),
  - `GPT.py` (`prompt_gpt_for_trails` / `prompt_gpt_for_tickets` callers),
  - `configuration_features.py` (`deactivate_auto_reply_snapin`).

Network calls and LLM responses are modelled as oracle parameters; progress
callbacks are modelled as the list of percentage values they receive, in
order.  Machine randomness (`random.choice`, `random.randint`) is modelled by
explicit choice-function parameters.
-/

namespace DemoGen

/-! ### String helpers (substring / suffix tests over character lists)

`save_payload_to_file` uses Python's `in` (substring containment) and
`clean_org` uses `str.endswith`; we model both over `List Char`. -/

/-- `startsWithSeg seg l` is true when `seg` is a prefix of `l`. -/
def startsWithSeg : List Char → List Char → Bool
  | [], _ => true
  | _ :: _, [] => false
  | a :: as, b :: bs => a == b && startsWithSeg as bs

/-- `containsSeg seg l` is true when `seg` occurs contiguously inside `l`
(Python's `seg in l`). -/
def containsSeg (seg : List Char) : List Char → Bool
  | [] => startsWithSeg seg []
  | b :: bs => startsWithSeg seg (b :: bs) || containsSeg seg bs

/-- `strContains s seg`: Python `seg in s` on strings. -/
def strContains (s seg : String) : Bool :=
  containsSeg seg.data s.data

/-- `strEndsWith s suffixPart`: Python `s.endswith(suffixPart)`. -/
def strEndsWith (s suffixPart : String) : Bool :=
  startsWithSeg suffixPart.data.reverse s.data.reverse

/-! ### `utils.save_payload_to_file` — directory routing (claim C2)

From `src/utils.py` lines 19-35: a payload whose name contains one of the
four listed markers goes to `output_files`, everything else to
`input_files`.  The marker list in the source is
`['_responses', '_processed', '_existing', '_failed']`. -/

/-- The substring markers checked by `save_payload_to_file` (`src/utils.py`
line 21). -/
def outputMarkers : List String :=
  ["_responses", "_processed", "_existing", "_failed"]

/-- Directory chosen by `save_payload_to_file` for a payload name. -/
def saveDir (objectPayload : String) : String :=
  if outputMarkers.any (fun suf => strContains objectPayload suf) then
    "output_files"
  else
    "input_files"

/-- Every payload name the repository actually passes to
`save_payload_to_file`, paired with the directory it is routed to by the
classification of the amended claim (generated `_gpt` content files are
inputs, not outputs). -/
def artifactDirs : List (String × String) :=
  [("devusers", "input_files"),
   ("devusers_responses", "output_files"),
   ("accounts", "input_files"),
   ("accounts_responses", "output_files"),
   ("accounts_processed", "output_files"),
   ("revusers", "input_files"),
   ("revusers_failed", "output_files"),
   ("revusers_existing", "output_files"),
   ("revusers_responses", "output_files"),
   ("revusers_processed", "output_files"),
   ("trails_gpt", "input_files"),
   ("trails_responses", "output_files"),
   ("parts", "input_files"),
   ("tickets_gpt", "input_files"),
   ("tickets_failed", "output_files"),
   ("tickets_responses", "output_files"),
   ("tickets_processed", "output_files"),
   ("issues_gpt", "input_files"),
   ("issues_failed", "output_files"),
   ("issues_responses", "output_files"),
   ("opportunities", "input_files"),
   ("opportunities_failed", "output_files"),
   ("opportunities_responses", "output_files"),
   ("cleanup_status_responses", "output_files"),
   ("parts_loaded", "input_files"),
   ("works_loaded", "input_files"),
   ("rev_users_loaded", "input_files"),
   ("dev_users_loaded", "input_files"),
   ("custom_stages_loaded", "input_files")]

/-! ### `clean_org` dev-users stage — protected-user exclusion (claim C7)

From `src/devrev_objects.py` lines 1281-1297. -/

/-- The id-suffix convention that protects the seed dev user
(`user['id'].endswith('devu/1')`). -/
def isProtectedId (id : String) : Bool :=
  strEndsWith id "devu/1"

/-- Deletable dev-user ids: those whose id does not end in `devu/1`
(`src/devrev_objects.py` line 1282). -/
def devUserDeletable (ids : List String) : List String :=
  ids.filter (fun i => !isProtectedId i)

/-- The `dev_users` entry of `cleanup_status` as computed by `clean_org`
(lines 1283-1284): total is the full list length, protected is the
difference between total and the deletable count. -/
structure DevUsersStatus where
  total : Nat
  protectedCount : Nat
  deriving Repr, DecidableEq

/-- `clean_org`'s bookkeeping for the dev-users stage. -/
def devUsersCleanupStatus (ids : List String) : DevUsersStatus :=
  { total := ids.length
    protectedCount := ids.length - (devUserDeletable ids).length }

/-! ### `create_trails` GPT retry loop (claims C4 and C10)

From `src/devrev_objects.py` lines 483-494.  The loop re-prompts while the
parsed trails object is empty; the retry counter is incremented only inside
the `except` branch; at `gpt_retries == 3` it raises.  We model the loop
with explicit fuel (number of loop iterations allowed) because the Python
loop need not terminate; the generator is an oracle giving, per call index,
either a parsed trails object or an exception message. -/

/-- Three-level hierarchy JSON: capability → feature → subfeature names.
The feature value is `Option (List String)` because `create_trails` checks
`isinstance(..., list)` before iterating subfeatures. -/
abbrev TrailsJson := List (String × List (String × Option (List String)))

/-- Outcome of running the retry loop for a bounded number of iterations.
Each constructor records how many generator calls were made. -/
inductive TrailsLoopResult where
  | done (calls : Nat) (trails : TrailsJson)
  | fatal (calls : Nat) (msg : String)
  | outOfFuel (calls : Nat)
  deriving DecidableEq

/-- The `while len(trails_json) == 0` loop of `create_trails`
(`src/devrev_objects.py` lines 486-494), fuelled.  `gen n` is the result of
the `n`-th call to `prompt_gpt_for_trails`: `Except.error` models the call
raising.  On success the loop re-checks emptiness without touching the
retry counter; on an exception the counter is incremented and the loop
aborts fatally when it reaches 3. -/
def createTrailsGptLoop (gen : Nat → Except String TrailsJson) :
    Nat → Nat → Nat → TrailsLoopResult
  | 0, calls, _ => .outOfFuel calls
  | fuel + 1, calls, retries =>
    match gen calls with
    | .ok t =>
      if t.isEmpty then createTrailsGptLoop gen fuel (calls + 1) retries
      else .done (calls + 1) t
    | .error _ =>
      if retries + 1 == 3 then
        .fatal (calls + 1) "GPT failed to return a response after 3 attempts"
      else createTrailsGptLoop gen fuel (calls + 1) (retries + 1)

/-! ### `create_org.main` — progress aggregation (claims C1 and C3)

From `src/create_org.py` lines 18-249.  `main` performs 11 weighted steps
(`total_steps = 11`, `step_weight = 100 / total_steps`); before each enabled
step it advances `current_progress` by `step_weight` and reports that header
value; every callback issued from inside the step with internal percentage
`p` is remapped to `current_progress - step_weight + p * step_weight / 100`.
On success it finally reports 100.  We model a run as the list of progress
values delivered to the callback, in order; each step is a pair of its
enabled-flag and the list of internal percentages the stage reports. -/

/-- `step_weight = 100 / total_steps` with `total_steps = 11`
(`src/create_org.py` lines 35-36). -/
def stepWeight : ℚ := 100 / 11

/-- The progress values a single enabled step delivers: first the header
value `cp` (reported right after `current_progress += step_weight`), then
each internal percentage `p` remapped through the closure
`current_progress - step_weight + p * step_weight / 100`. -/
def stageSeg (cp : ℚ) (sub : List ℚ) : List ℚ :=
  cp :: sub.map (fun p => cp - stepWeight + p * stepWeight / 100)

/-- Progress values of a sequence of steps, threading `current_progress`:
a disabled step neither advances the counter nor reports anything. -/
def traceAux : ℚ → List (Bool × List ℚ) → List ℚ
  | _, [] => []
  | cp, (b, sub) :: rest =>
    if b then stageSeg (cp + stepWeight) sub ++ traceAux (cp + stepWeight) rest
    else traceAux cp rest

/-- The 11 steps of `main` in source order: auto-reply deactivation, SLA
setup and web crawl are guarded by the settings flags; the crawl step and
the stage-vocabulary load issue no internal callbacks. -/
def mainSteps (hasSettings deact sla crawl : Bool)
    (subDe subSla subDev subAcc subRev subTra subTick subIss subOpp : List ℚ) :
    List (Bool × List ℚ) :=
  [(hasSettings && deact, subDe),
   (hasSettings && sla, subSla),
   (hasSettings && crawl, []),
   (true, subDev),
   (true, subAcc),
   (true, subRev),
   (true, subTra),
   (true, []),
   (true, subTick),
   (true, subIss),
   (true, subOpp)]

/-- Complete progress trace of a successful run of `create_org.main`:
the initial `("Initializing...", 0)` report, the per-step reports, and the
final `("All operations completed successfully", 100)` report. -/
def mainTrace (hasSettings deact sla crawl : Bool)
    (subDe subSla subDev subAcc subRev subTra subTick subIss subOpp : List ℚ) :
    List ℚ :=
  0 :: traceAux 0 (mainSteps hasSettings deact sla crawl
    subDe subSla subDev subAcc subRev subTra subTick subIss subOpp) ++ [100]

/-- Complete progress trace of a run that fails inside one of the
sub-reporting stages: after the completed steps `done`, the failing stage's
header is reported, then its internal reports `partialSub`, then the
stage's own `except` handler reports internal percentage 0
(e.g. `src/devrev_objects.py` lines 747-750), and finally `main`'s handler
reports `current_progress` (`src/create_org.py` lines 247-249) and
re-raises. -/
def mainTraceFailAt (done : List (Bool × List ℚ)) (partialSub : List ℚ) : List ℚ :=
  let cpF := stepWeight * (done.countP (fun s => s.1)) + stepWeight
  0 :: traceAux 0 done ++ stageSeg cpF (partialSub ++ [0]) ++ [cpF]

/-- The reports of the same failing run up to (and excluding) the moment
the exception is raised inside the stage: everything in
`mainTraceFailAt done partialSub` except the two error-handler reports. -/
def mainTraceFailPre (done : List (Bool × List ℚ)) (partialSub : List ℚ) : List ℚ :=
  let cpF := stepWeight * (done.countP (fun s => s.1)) + stepWeight
  0 :: traceAux 0 done ++ stageSeg cpF partialSub

/-! ### Per-stage internal progress sequences (success paths)

Each creation stage reports a fixed pattern of internal percentages; these
are read off the `update_progress` calls of the corresponding function in
`src/devrev_objects.py` and `src/GPT.py`. -/

/-- `create_devusers` internal reports for `n ≥ 1` users
(lines 185, 192, 199-200, 208): 0, 20, then `40 + (idx/n)*60` after each
user, then 100. -/
def devusersSubProgress (n : Nat) : List ℚ :=
  0 :: 20 :: ((List.range n).map (fun idx => 40 + (((idx : ℚ) + 1) / n) * 60)) ++ [100]

/-- `create_accounts` internal reports for `m ≥ 1` accounts
(lines 244, 259, 265-266, 313). -/
def accountsSubProgress (m : Nat) : List ℚ :=
  0 :: 20 :: ((List.range m).map (fun idx => 40 + (((idx : ℚ) + 1) / m) * 60)) ++ [100]

/-- `create_revusers` internal reports for `r ≥ 1` users, all created
successfully (lines 367, 372, 378-379, 427). -/
def revusersSubProgress (r : Nat) : List ℚ :=
  0 :: 20 :: ((List.range r).map (fun idx => 40 + (((idx : ℚ) + 1) / r) * 60)) ++ [100]

/-- Total item count of a trails hierarchy as computed by `create_trails`
(lines 500-506): one per capability, one per feature, one per subfeature of
each list-valued feature. -/
def trailsTotalItems (t : TrailsJson) : Nat :=
  t.foldl
    (fun acc cap =>
      acc + 1 + cap.2.length +
        cap.2.foldl
          (fun a f => a + (match f.2 with | some l => l.length | none => 0)) 0)
    0

/-- `create_trails` internal reports when the first GPT call succeeds
(lines 480, 488, 508, 527-529 etc., 630): 0, 5, 10, then
`10 + item*(80/total)` per created item in depth-first order, then 100. -/
def trailsSubProgressOk (t : TrailsJson) : List ℚ :=
  let total := trailsTotalItems t
  0 :: 5 :: 10 ::
    ((List.range total).map (fun k => 10 + ((k : ℚ) + 1) * (80 / total))) ++ [100]

/-- `create_tickets` internal reports for `p ≥ 1` parts and `tk ≥ 1`
created tickets (lines 663, 673-676, 685, 707-708, 743, together with the
GPT generator's reports in `src/GPT.py` lines 127, 202-204, scaled by 0.4):
0, 0, the per-part GPT percentages scaled into 0-40, then 40, then
`40 + (idx/tk)*60` per ticket, then 100. -/
def ticketsSubProgress (p tk : Nat) : List ℚ :=
  0 :: 0 ::
    ((List.range p).map (fun i => (((i : ℚ) + 1) / p * 100) * (2 / 5))) ++
    [40] ++
    ((List.range tk).map (fun i => 40 + (((i : ℚ) + 1) / tk) * 60)) ++ [100]

/-- `create_issues` internal reports, same shape as tickets
(`src/devrev_objects.py` lines 777, 787-790, 799, 821-822, 845 and
`src/GPT.py` lines 249, 324-326). -/
def issuesSubProgress (p is : Nat) : List ℚ :=
  0 :: 0 ::
    ((List.range p).map (fun i => (((i : ℚ) + 1) / p * 100) * (2 / 5))) ++
    [40] ++
    ((List.range is).map (fun i => 40 + (((i : ℚ) + 1) / is) * 60)) ++ [100]

/-- `create_opportunities` internal reports for `tot ≥ 1` opportunities
(lines 878, 888, 899-900, 920): 0, 30, `30 + (idx/tot)*70` per
opportunity, then 100. -/
def oppsSubProgress (tot : Nat) : List ℚ :=
  0 :: 30 :: ((List.range tot).map (fun i => 30 + (((i : ℚ) + 1) / tot) * 70)) ++ [100]

/-- The example hierarchy of the spec: `{"A": {"F1": ["S1","S2"]}}`. -/
def trailsEx : TrailsJson := [("A", [("F1", some ["S1", "S2"])])]

/-- A concrete successful run of the pipeline launched through the web
front door (`src/main.py` always attaches a `settings` object) with the
three optional settings flags disabled: one dev user, one account, one
rev user, the example hierarchy (4 parts), one ticket, one issue, one
opportunity. -/
def runTraceEx : List ℚ :=
  mainTrace true false false false [] []
    (devusersSubProgress 1) (accountsSubProgress 1) (revusersSubProgress 1)
    (trailsSubProgressOk trailsEx) (ticketsSubProgress 4 1)
    (issuesSubProgress 4 1) (oppsSubProgress 1)

/-- The steps completed before a failure in the tickets stage of the same
run: the three disabled settings steps, then dev users, accounts, rev
users, product hierarchy and the stage vocabulary load. -/
def ticketsFailDone : List (Bool × List ℚ) :=
  [(false, []),
   (false, []),
   (false, []),
   (true, devusersSubProgress 1),
   (true, accountsSubProgress 1),
   (true, revusersSubProgress 1),
   (true, trailsSubProgressOk trailsEx),
   (true, [])]

/-- Progress trace of a run failing inside `create_tickets` after the GPT
generator reported one part (internal reports 0, 0, 10 before the
exception). -/
def runTraceFailEx : List ℚ :=
  mainTraceFailAt ticketsFailDone [0, 0, 10]

/-- The pre-failure reports of the same failing run. -/
def runTraceFailPreEx : List ℚ :=
  mainTraceFailPre ticketsFailDone [0, 0, 10]

/-- Range predicate for internal stage percentages: every stage reports
values within `[0, 100]`. -/
def inRange (l : List ℚ) : Prop := ∀ p ∈ l, 0 ≤ p ∧ p ≤ 100

/-! ### `create_trails` hierarchy creation (claim C6)

From `src/devrev_objects.py` lines 524-624: depth-first top-down creation.
The platform's id assignment is modelled by `alloc` (id of the `n`-th
created part) and the `random.choice(dev_users)` owner pick by `pick`. -/

/-- One part created by `create_trails`, with the payload fields it was
posted with, the platform id it received, and the `created_items` bucket
it was appended to.  Note the payload `ptype` of a subfeature is
`"feature"` (line 603) even though its bucket is `"subfeatures"`. -/
structure CreatedPart where
  name : String
  ptype : String
  owner : String
  parent : String
  pid : String
  bucket : String
  deriving Repr, DecidableEq

/-- Subfeature creation loop (lines 592-624): each subfeature's
`parent_part` is the id returned when its feature was created. -/
def walkSubfeatures (alloc pick : Nat → String) (parentId : String) :
    Nat → List String → List CreatedPart × Nat
  | ctr, [] => ([], ctr)
  | ctr, s :: rest =>
    let part : CreatedPart :=
      ⟨s, "feature", pick ctr, parentId, alloc ctr, "subfeatures"⟩
    let (ps, c2) := walkSubfeatures alloc pick parentId (ctr + 1) rest
    (part :: ps, c2)

/-- Feature creation loop (lines 558-624): each feature's `parent_part` is
the id returned when its capability was created; its subfeatures are
created right after it (only when the JSON value is a list). -/
def walkFeatures (alloc pick : Nat → String) (capId : String) :
    Nat → List (String × Option (List String)) → List CreatedPart × Nat
  | ctr, [] => ([], ctr)
  | ctr, (f, subsOpt) :: rest =>
    let part : CreatedPart :=
      ⟨f, "feature", pick ctr, capId, alloc ctr, "features"⟩
    let (sps, c2) :=
      match subsOpt with
      | some subs => walkSubfeatures alloc pick (alloc ctr) (ctr + 1) subs
      | none => ([], ctr + 1)
    let (fps, c3) := walkFeatures alloc pick capId c2 rest
    (part :: (sps ++ fps), c3)

/-- Capability creation loop (lines 525-624): every capability's
`parent_part` is the fixed root part `"PROD-1"` (line 536); its features
are created right after it. -/
def walkCapabilities (alloc pick : Nat → String) :
    Nat → TrailsJson → List CreatedPart × Nat
  | ctr, [] => ([], ctr)
  | ctr, (cap, feats) :: rest =>
    let part : CreatedPart :=
      ⟨cap, "capability", pick ctr, "PROD-1", alloc ctr, "capabilities"⟩
    let (fps, c2) := walkFeatures alloc pick (alloc ctr) (ctr + 1) feats
    let (cps, c3) := walkCapabilities alloc pick c2 rest
    (part :: (fps ++ cps), c3)

/-- All parts created by `create_trails` for a hierarchy, in creation
order. -/
def createTrailsWalk (alloc pick : Nat → String) (t : TrailsJson) :
    List CreatedPart :=
  (walkCapabilities alloc pick 0 t).1

/-! ### Per-item failure bookkeeping (claim C5)

From `src/devrev_objects.py`: `create_tickets` lines 690-745,
`create_issues` lines 804-847, `create_opportunities` lines 894-922.
Each loop catches exceptions per item, appends `{title, error, payload}`
to a failure list (the payload being the original generated item) and
continues; afterwards the failure list is persisted when non-empty.  The
whole per-item body (payload enrichment plus the `works.create` call) is
modelled by the `attempt` oracle. -/

/-- One generated ticket (GPT output enriched with `applies_to_part`). -/
structure TicketItem where
  title : String
  body : String
  severity : String
  stage : String
  part : String
  deriving Repr, DecidableEq

/-- One generated issue. -/
structure IssueItem where
  title : String
  body : String
  priority : String
  stage : String
  part : String
  deriving Repr, DecidableEq

/-- A successful `works.create` response, flattened to the fields the
pipeline reads back. -/
structure WorkResp where
  id : String
  title : String
  body : String
  stageName : String
  severity : String
  partId : String
  deriving Repr, DecidableEq

/-- A per-item failure record `{title, error, payload}`. -/
structure ItemFailure (α : Type) where
  ftitle : String
  err : String
  payload : α
  deriving Repr, DecidableEq

/-- The per-ticket creation loop of `create_tickets` (lines 690-718):
returns the successful responses and the failure records, both in
processing order. -/
def ticketsLoop (attempt : TicketItem → Except String WorkResp) :
    List TicketItem → List WorkResp × List (ItemFailure TicketItem)
  | [] => ([], [])
  | t :: ts =>
    let rest := ticketsLoop attempt ts
    match attempt t with
    | .ok r => (r :: rest.1, rest.2)
    | .error e => (rest.1, ⟨t.title, e, t⟩ :: rest.2)

/-- The per-issue creation loop of `create_issues` (lines 804-832). -/
def issuesLoop (attempt : IssueItem → Except String WorkResp) :
    List IssueItem → List WorkResp × List (ItemFailure IssueItem)
  | [] => ([], [])
  | t :: ts =>
    let rest := issuesLoop attempt ts
    match attempt t with
    | .ok r => (r :: rest.1, rest.2)
    | .error e => (rest.1, ⟨t.title, e, t⟩ :: rest.2)

/-- The `ticket_details` extraction of `create_tickets` (lines 729-738). -/
def ticketDetails (rs : List WorkResp) : List WorkResp := rs.map id

/-- Result of the creation phase of `create_tickets`: the returned
`ticket_details`, the failure records, and the artifact names persisted
afterwards (lines 720-743).  The function is total: per-item exceptions
are absorbed into the failure list and the stage does not raise. -/
def createTicketsStage (attempt : TicketItem → Except String WorkResp)
    (tickets : List TicketItem) :
    List WorkResp × List (ItemFailure TicketItem) × List String :=
  let rf := ticketsLoop attempt tickets
  (ticketDetails rf.1, rf.2,
    (if rf.2.isEmpty then [] else ["tickets_failed"]) ++
      (if rf.1.isEmpty then [] else ["tickets_responses"]) ++
      ["tickets_processed"])

/-- Result of the creation phase of `create_issues` (lines 834-845):
returned issue ids, failure records, persisted artifact names. -/
def createIssuesStage (attempt : IssueItem → Except String WorkResp)
    (issues : List IssueItem) :
    List String × List (ItemFailure IssueItem) × List String :=
  let rf := issuesLoop attempt issues
  (rf.1.map (fun r => r.id), rf.2,
    (if rf.2.isEmpty then [] else ["issues_failed"]) ++
      (if rf.1.isEmpty then [] else ["issues_responses"]))

/-! ### `create_opportunities_payload` (claim C9) and the opportunities
creation loop (claim C5)

From `src/devrev_objects.py` lines 854-981.  Randomness (stage pick, ARR,
contract months, owner pick) is modelled by explicit choice functions.
`round2` models Python's `round(x, 2)`; the source computes it on floats,
here it is exact rational rounding (the difference is irrelevant to the
claims, which never inspect `amount`). -/

/-- Rounding to two decimals. -/
def round2 (q : ℚ) : ℚ := (⌊q * 100 + 1 / 2⌋ : ℚ) / 100

/-- One opportunity payload. -/
structure Opp where
  otitle : String
  arr : ℚ
  amount : ℚ
  forecast : String
  owner : String
  acct : String
  stageId : Nat
  deriving Repr, DecidableEq

/-- One account record as consumed by `create_opportunities_payload`. -/
structure Account where
  name : String
  id : String
  deriving Repr, DecidableEq

/-- The keys of `stage_forecast_mapping` (lines 940-948), in source
order. -/
def stageKeys : List String :=
  ["qualification", "stalled", "validation", "negotiation", "contract",
   "closed_won", "closed_lost"]

/-- `stage_forecast_mapping`; the source looks the mapping up only at the
seven keys above (base stages are sampled from `stageKeys`, upsell stages
from `negotiation`/`contract`), so the catch-all is never reached. -/
def stageForecast : String → String
  | "qualification" => "pipeline"
  | "stalled" => "pipeline"
  | "validation" => "upside"
  | "negotiation" => "strong_upside"
  | "contract" => "commit"
  | "closed_won" => "won"
  | "closed_lost" => "omitted"
  | _ => ""

/-- A base opportunity derived from an account (lines 950-963):
`stageChoice i` is the index into `stageKeys` picked by
`random.choice(random.sample(...))` for the `i`-th account, `arrChoice`
and `monthsChoice` the two `random.randint` draws, `ownerChoice` the
`random.choice(dev_user_ids)` pick. -/
def mkBaseOpp (stages : String → Nat) (stageChoice : Nat → Fin stageKeys.length)
    (arrChoice monthsChoice : Nat → Nat) (ownerChoice : Nat → String)
    (i : Nat) (account : Account) : Opp :=
  let sk := stageKeys.get (stageChoice i)
  { otitle := account.name
    arr := arrChoice i
    amount := round2 ((arrChoice i : ℚ) * ((monthsChoice i : ℚ) / 12))
    forecast := stageForecast sk
    owner := ownerChoice i
    acct := account.id
    stageId := stages sk }

/-- The won-check of the upsell loop (line 966): the opportunity's stage
id equals the id of `closed_won`. -/
def isWonOpp (stages : String → Nat) (o : Opp) : Bool :=
  o.stageId == stages "closed_won"

/-- The upsell stage pick `random.choice(["negotiation", "contract"])`
(line 968). -/
def upStageName (b : Bool) : String :=
  if b then "negotiation" else "contract"

/-- The synthetic upsell opportunity appended for a won opportunity
(lines 967-979), indexed by the loop position `i` at which it is
generated. -/
def mkUpsellOpp (stages : String → Nat) (upArr upMonths : Nat → Nat)
    (upStage : Nat → Bool) (i : Nat) (o : Opp) : Opp :=
  let sk := upStageName (upStage i)
  { otitle := o.otitle ++ " - Upsell"
    arr := upArr i
    amount := round2 ((upArr i : ℚ) * ((upMonths i : ℚ) / 12))
    forecast := stageForecast sk
    owner := o.owner
    acct := o.acct
    stageId := stages sk }

/-- Python's `for opportunity in opportunities: ... opportunities.append(...)`
(lines 965-979) iterates with a cursor over a list that grows at the end,
so appended upsells are themselves visited later.  Modelled with explicit
fuel bounding the number of iterations; the wrapper below supplies fuel
that suffices whenever upsells are not themselves `closed_won` (the Python
loop would not terminate otherwise). -/
def upsellStep (isWon : Opp → Bool) (mk : Nat → Opp → Opp) :
    Nat → List Opp → Nat → List Opp
  | 0, l, _ => l
  | fuel + 1, l, i =>
    if h : i < l.length then
      let x := l.get ⟨i, h⟩
      upsellStep isWon mk fuel (if isWon x then l ++ [mk i x] else l) (i + 1)
    else l

/-- The upsells generated while scanning a segment of the list starting at
cursor position `i` (specification helper for `upsellStep`). -/
def genUps (isWon : Opp → Bool) (mk : Nat → Opp → Opp) :
    Nat → List Opp → List Opp
  | _, [] => []
  | i, x :: xs =>
    (if isWon x then [mk i x] else []) ++ genUps isWon mk (i + 1) xs

/-- The base opportunities of the first loop of
`create_opportunities_payload` (lines 950-963), one per account. -/
def oppBaseList (stages : String → Nat) (stageChoice : Nat → Fin stageKeys.length)
    (arrChoice monthsChoice : Nat → Nat) (ownerChoice : Nat → String)
    (accounts : List Account) : List Opp :=
  accounts.mapIdx
    (fun i a => mkBaseOpp stages stageChoice arrChoice monthsChoice ownerChoice i a)

/-- `create_opportunities_payload` (lines 929-981): one base opportunity
per account, then the upsell append-while-iterating loop.  The fuel
`2 * base.length` bounds the iteration count; it is sufficient whenever
an upsell opportunity never lands in `closed_won` itself (which the
hypotheses of the theorems below guarantee). -/
def createOpportunitiesPayload (stages : String → Nat)
    (stageChoice : Nat → Fin stageKeys.length)
    (arrChoice monthsChoice : Nat → Nat) (ownerChoice : Nat → String)
    (upArr upMonths : Nat → Nat) (upStage : Nat → Bool)
    (accounts : List Account) : List Opp :=
  let base := oppBaseList stages stageChoice arrChoice monthsChoice ownerChoice accounts
  upsellStep (isWonOpp stages) (mkUpsellOpp stages upArr upMonths upStage)
    (2 * base.length) base 0

/-- The per-opportunity creation loop of `create_opportunities`
(lines 894-910). -/
def oppsLoop (attempt : Opp → Except String WorkResp) :
    List Opp → List WorkResp × List (ItemFailure Opp)
  | [] => ([], [])
  | t :: ts =>
    let rest := oppsLoop attempt ts
    match attempt t with
    | .ok r => (r :: rest.1, rest.2)
    | .error e => (rest.1, ⟨t.otitle, e, t⟩ :: rest.2)

/-- Result of the creation phase of `create_opportunities`
(lines 891-920): the returned responses, the failure records, and the
artifact names persisted afterwards. -/
def createOpportunitiesStage (attempt : Opp → Except String WorkResp)
    (opps : List Opp) :
    List WorkResp × List (ItemFailure Opp) × List String :=
  let rf := oppsLoop attempt opps
  (rf.1, rf.2,
    (if rf.2.isEmpty then [] else ["opportunities_failed"]) ++
      (if rf.1.isEmpty then [] else ["opportunities_responses"]))

/-! ### `deactivate_auto_reply_snapin` (claim C8)

From `src/configuration_features.py` lines 20-107.  The `snap-ins.list`
response is the `snapins` input; the `snap-ins.deactivate` POST outcome is
the `deact` oracle.  The function returns the Python result (or the raised
error) together with the number of deactivate requests issued. -/

/-- A snap-in record, with the fields the function reads: `automations` is
the list of automation names. -/
structure SnapIn where
  id : String
  displayId : String
  automations : List String
  state : String
  isActive : Bool
  deriving Repr, DecidableEq

/-- The auto-reply match of the search loop (line 38): non-empty
`automations` whose first entry is named `auto_reply`. -/
def autoReplyMatch (s : SnapIn) : Bool :=
  match s.automations with
  | [] => false
  | a :: _ => a == "auto_reply"

/-- Python's `str.lower()` on the snap-in state. -/
def strLower (s : String) : String := String.mk (s.data.map Char.toLower)

/-- Outcome of the `snap-ins.deactivate` POST. -/
inductive DeactResp where
  | ok
  | badRequestInactive
  | failure (msg : String)
  deriving Repr, DecidableEq

/-- `deactivate_auto_reply_snapin`: find the auto-reply snap-in; when
missing return `False`; when already inactive (`not is_active or state ==
'disabled'`, lines 54-59) return `True` without issuing a deactivate
request; otherwise issue one deactivate request, treating the documented
400 response as success and re-raising other failures. -/
def deactivateAutoReplySnapin (snapins : List SnapIn) (deact : DeactResp) :
    Except String Bool × Nat :=
  match snapins.find? autoReplyMatch with
  | none => (.ok false, 0)
  | some s =>
    if !s.isActive || strLower s.state == "disabled" then (.ok true, 0)
    else
      match deact with
      | .ok => (.ok true, 1)
      | .badRequestInactive => (.ok true, 1)
      | .failure m => (.error m, 1)

/-! ### Example data for concrete instantiations -/

/-- An example generated ticket. -/
def ticketItemEx1 : TicketItem := ⟨"T1", "body1", "low", "queued", "A"⟩

/-- An example generated ticket constructed to fail at creation. -/
def ticketItemBad : TicketItem := ⟨"TBAD", "bodyb", "high", "queued", "A"⟩

/-- Another example generated ticket. -/
def ticketItemEx2 : TicketItem := ⟨"T2", "body2", "medium", "resolved", "F1"⟩

/-- An example per-ticket creation oracle failing exactly on the title
`TBAD`. -/
def ticketAttemptEx : TicketItem → Except String WorkResp := fun t =>
  if t.title == "TBAD" then Except.error "HTTP 400 bad stage"
  else Except.ok ⟨"work-t", t.title, t.body, t.stage, t.severity, "part-1"⟩

/-- An example generated issue constructed to fail at creation. -/
def issueItemBad : IssueItem := ⟨"IBAD", "bodyb", "p1", "triage", "A"⟩

/-- Another example generated issue. -/
def issueItemEx2 : IssueItem := ⟨"I2", "body2", "p2", "triage", "F1"⟩

/-- An example per-issue creation oracle failing exactly on the title
`IBAD`. -/
def issueAttemptEx : IssueItem → Except String WorkResp := fun t =>
  if t.title == "IBAD" then Except.error "HTTP 400 bad part"
  else Except.ok ⟨"work-i", t.title, t.body, t.stage, t.priority, "part-1"⟩

/-- An example opportunity payload. -/
def oppEx1 : Opp := ⟨"Acme", 20000, 30000, "pipeline", "dev-1", "acc-1", 0⟩

/-- An example opportunity payload constructed to fail at creation. -/
def oppBadEx : Opp := ⟨"OBAD", 20000, 30000, "won", "dev-1", "acc-2", 5⟩

/-- An example per-opportunity creation oracle failing exactly on the
title `OBAD`. -/
def oppAttemptEx : Opp → Except String WorkResp := fun o =>
  if o.otitle == "OBAD" then Except.error "HTTP 400 bad account"
  else Except.ok ⟨"work-o", o.otitle, "", "", "", ""⟩

/-- An example stage name → id map with pairwise distinct ids for the
pipeline stages used by the opportunities payload. -/
def stagesEx : String → Nat := fun s =>
  if s == "closed_won" then 5
  else if s == "negotiation" then 3
  else if s == "contract" then 4
  else 0

/-- An example base-stage pick: the first account lands in `closed_won`
(index 5 of `stageKeys`), every other account in `qualification`. -/
def stageChoiceEx : Nat → Fin stageKeys.length := fun i =>
  if i == 0 then ⟨5, by decide⟩ else ⟨0, by decide⟩

/-- Two example accounts. -/
def accountsEx : List Account := [⟨"Acme", "acc-1"⟩, ⟨"Globex", "acc-2"⟩]

/-- Example ARR draw. -/
def arrChoiceEx : Nat → Nat := fun _ => 20000

/-- Example contract-months draw. -/
def monthsChoiceEx : Nat → Nat := fun _ => 24

/-- Example owner pick. -/
def ownerChoiceEx : Nat → String := fun _ => "dev-1"

/-- Example upsell ARR draw. -/
def upArrEx : Nat → Nat := fun _ => 15000

/-- Example upsell contract-months draw. -/
def upMonthsEx : Nat → Nat := fun _ => 12

/-- Example upsell stage pick (`negotiation` on even positions). -/
def upStageChoiceEx : Nat → Bool := fun i => i % 2 == 0

/-- An example snap-in in its active state. -/
def snapActiveEx : SnapIn :=
  ⟨"snap1", "SNAP-1", ["auto_reply"], "active", true⟩

/-- The same example snap-in after deactivation. -/
def snapDisabledEx : SnapIn :=
  ⟨"snap1", "SNAP-1", ["auto_reply"], "disabled", false⟩

/-! ## Theorems -/

/-! ### Claim C2 — artifact directory routing -/

/-- C2 counterexample: the claim states that payloads whose name carries
the suffix `_gpt` are written into `output_files/`; but `_gpt` is not in
the marker list of `save_payload_to_file`, so `tickets_gpt` (saved by
`prompt_gpt_for_tickets`, `src/GPT.py` line 214) is routed to
`input_files/`. -/
theorem c2_gpt_dir_counterexample :
    ¬ (saveDir "tickets_gpt" = "output_files") := by
  decide

/-- C2 (amended): payload names containing `_responses`, `_processed`,
`_existing` or `_failed` are routed to `output_files/`; every other
payload the repository saves — the `_gpt` generated-content files and the
`_loaded` cleanup snapshots included — is routed to `input_files/`.
Checked on every payload name the source passes to
`save_payload_to_file`. -/
theorem c2_artifact_dirs :
    artifactDirs.all (fun p => saveDir p.1 == p.2) = true := by
  decide

/-! ### Claim C7 — protected dev-user exclusion in `clean_org` -/

/-- Auxiliary: `countP` of the negated predicate complements `countP`. -/
theorem countP_not_add_countP {α : Type} (p : α → Bool) (l : List α) :
    l.countP (fun a => !p a) + l.countP p = l.length := by
  induction l with
  | nil => simp
  | cons a l ih =>
    by_cases h : p a <;> simp [List.countP_cons, h, ← ih] <;> omega

/-- C7: if the loaded dev-user list contains exactly one id matching the
protected suffix convention (`endswith('devu/1')`), then the deletable
set has one fewer element, contains every unprotected id and no protected
one, and the `CleanupStatus` reports `protected = 1` for `dev_users`. -/
theorem c7_protected_exclusion (ids : List String)
    (h : ids.countP (fun i => isProtectedId i) = 1) :
    (devUsersCleanupStatus ids).protectedCount = 1 ∧
    (devUserDeletable ids).length = ids.length - 1 ∧
    (∀ x ∈ ids, isProtectedId x = false → x ∈ devUserDeletable ids) ∧
    (∀ x, isProtectedId x = true → x ∉ devUserDeletable ids) := by
  have hlen : (devUserDeletable ids).length = ids.length - 1 := by
    have hc := countP_not_add_countP (fun i => isProtectedId i) ids
    have : (devUserDeletable ids).length =
        ids.countP (fun a => !isProtectedId a) := by
      simp [devUserDeletable, List.countP_eq_length_filter]
    omega
  have hle : 1 ≤ ids.length := by
    have := List.countP_le_length (p := fun i => isProtectedId i) (l := ids)
    omega
  refine ⟨?_, hlen, ?_, ?_⟩
  · simp only [devUsersCleanupStatus, hlen]
    omega
  · intro x hx hnp
    exact List.mem_filter.mpr ⟨hx, by simp [hnp]⟩
  · intro x hp hmem
    have := (List.mem_filter.mp hmem).2
    simp [hp] at this

/-- C7 witness: a three-user list with exactly one protected id. -/
theorem c7_protected_exclusion_witness :
    (["don:identity:dvrv-us-1:devo/demo:devu/1",
      "don:identity:dvrv-us-1:devo/demo:devu/7",
      "don:identity:dvrv-us-1:devo/demo:devu/12"].countP
        (fun i => isProtectedId i) = 1) ∧
    ((devUsersCleanupStatus
        ["don:identity:dvrv-us-1:devo/demo:devu/1",
         "don:identity:dvrv-us-1:devo/demo:devu/7",
         "don:identity:dvrv-us-1:devo/demo:devu/12"]).protectedCount = 1 ∧
      (devUserDeletable
        ["don:identity:dvrv-us-1:devo/demo:devu/1",
         "don:identity:dvrv-us-1:devo/demo:devu/7",
         "don:identity:dvrv-us-1:devo/demo:devu/12"]).length =
        (["don:identity:dvrv-us-1:devo/demo:devu/1",
          "don:identity:dvrv-us-1:devo/demo:devu/7",
          "don:identity:dvrv-us-1:devo/demo:devu/12"] : List String).length - 1 ∧
      (∀ x ∈ (["don:identity:dvrv-us-1:devo/demo:devu/1",
          "don:identity:dvrv-us-1:devo/demo:devu/7",
          "don:identity:dvrv-us-1:devo/demo:devu/12"] : List String),
        isProtectedId x = false →
          x ∈ devUserDeletable
            ["don:identity:dvrv-us-1:devo/demo:devu/1",
             "don:identity:dvrv-us-1:devo/demo:devu/7",
             "don:identity:dvrv-us-1:devo/demo:devu/12"]) ∧
      (∀ x, isProtectedId x = true →
        x ∉ devUserDeletable
          ["don:identity:dvrv-us-1:devo/demo:devu/1",
           "don:identity:dvrv-us-1:devo/demo:devu/7",
           "don:identity:dvrv-us-1:devo/demo:devu/12"])) :=
  ⟨by decide, c7_protected_exclusion _ (by decide)⟩

/-! ### Claim C4 — GPT retry cap in `create_trails` -/

/-- C4: if `prompt_gpt_for_trails` raises on every call, the retry loop
of `create_trails` makes exactly 3 calls and then raises the fatal error
`GPT failed to return a response after 3 attempts`; there is no 4th call
(the recorded call count of the fatal outcome is 3, whatever the
iteration budget). -/
theorem c4_retry_cap (gen : Nat → Except String TrailsJson)
    (hg : ∀ n, ∃ m, gen n = Except.error m)
    (fuel : Nat) (hf : 3 ≤ fuel) :
    createTrailsGptLoop gen fuel 0 0 =
      .fatal 3 "GPT failed to return a response after 3 attempts" := by
  obtain ⟨k, rfl⟩ : ∃ k, fuel = k + 3 := ⟨fuel - 3, by omega⟩
  obtain ⟨m0, h0⟩ := hg 0
  obtain ⟨m1, h1⟩ := hg 1
  obtain ⟨m2, h2⟩ := hg 2
  show createTrailsGptLoop gen (k + 2 + 1) 0 0 = _
  rw [createTrailsGptLoop, h0]
  show createTrailsGptLoop gen (k + 1 + 1) 1 1 = _
  rw [createTrailsGptLoop, h1]
  show createTrailsGptLoop gen (k + 0 + 1) 2 2 = _
  rw [createTrailsGptLoop, h2]
  rfl

/-- C4 witness: an always-raising generator with budget 5. -/
theorem c4_retry_cap_witness :
    (∀ n : Nat, ∃ m, (fun _ : Nat => (Except.error "Invalid JSON response from GPT" :
        Except String TrailsJson)) n = Except.error m) ∧
    createTrailsGptLoop
      (fun _ => Except.error "Invalid JSON response from GPT") 5 0 0 =
      .fatal 3 "GPT failed to return a response after 3 attempts" :=
  ⟨fun _ => ⟨_, rfl⟩,
   c4_retry_cap _ (fun _ => ⟨_, rfl⟩) 5 (by decide)⟩

/-! ### Claim C10 — non-termination on repeated empty hierarchies -/

/-- C10: if every call to `prompt_gpt_for_trails` returns normally with an
empty mapping, the `while len(trails_json) == 0` loop of `create_trails`
never terminates: however many iterations it is allowed, it neither
returns nor hits the 3-attempt abort, because the retry counter is only
incremented when the call raises. -/
theorem c10_empty_trails_nontermination :
    ∀ fuel calls retries,
      createTrailsGptLoop (fun _ => Except.ok ([] : TrailsJson)) fuel calls retries =
        .outOfFuel (calls + fuel) := by
  intro fuel
  induction fuel with
  | zero => intro calls retries; simp [createTrailsGptLoop]
  | succ f ih =>
    intro calls retries
    show createTrailsGptLoop (fun _ => Except.ok ([] : TrailsJson)) f
      (calls + 1) retries = _
    rw [ih]
    congr 1
    omega

/-! ### Claim C8 — idempotent auto-reply deactivation -/

/-- C8: when the auto-reply snap-in is found already inactive
(`is_active` false or state `disabled`), `deactivate_auto_reply_snapin`
returns `True` without issuing a deactivate request; consequently two
invocations in a row — the first seeing the snap-in active and
deactivating it successfully, the second observing the inactive state —
both return `True` with exactly one deactivate request issued in total. -/
theorem c8_idempotent_deactivation (l1 l2 : List SnapIn) (s1 s2 : SnapIn)
    (h1 : l1.find? autoReplyMatch = some s1)
    (hact : s1.isActive = true) (hst : strLower s1.state ≠ "disabled")
    (h2 : l2.find? autoReplyMatch = some s2)
    (hin : s2.isActive = false ∨ strLower s2.state = "disabled") :
    deactivateAutoReplySnapin l1 DeactResp.ok = (Except.ok true, 1) ∧
    (∀ d2, deactivateAutoReplySnapin l2 d2 = (Except.ok true, 0)) ∧
    (∀ d2, (deactivateAutoReplySnapin l1 DeactResp.ok).2 +
      (deactivateAutoReplySnapin l2 d2).2 = 1) := by
  have hbeq : (strLower s1.state == "disabled") = false := by
    simpa using hst
  have first : deactivateAutoReplySnapin l1 DeactResp.ok = (Except.ok true, 1) := by
    simp [deactivateAutoReplySnapin, h1, hact, hbeq]
  have second : ∀ d2, deactivateAutoReplySnapin l2 d2 = (Except.ok true, 0) := by
    intro d2
    rcases hin with hoff | hdis
    · simp [deactivateAutoReplySnapin, h2, hoff]
    · simp [deactivateAutoReplySnapin, h2, hdis]
  exact ⟨first, second, fun d2 => by rw [first, second d2]; rfl⟩

/-- C8 witness: a singleton snap-in list, first active then disabled. -/
theorem c8_idempotent_deactivation_witness :
    [snapActiveEx].find? autoReplyMatch = some snapActiveEx ∧
    snapActiveEx.isActive = true ∧
    strLower snapActiveEx.state ≠ "disabled" ∧
    [snapDisabledEx].find? autoReplyMatch = some snapDisabledEx ∧
    snapDisabledEx.isActive = false ∧
    (deactivateAutoReplySnapin [snapActiveEx] DeactResp.ok =
        (Except.ok true, 1) ∧
      (∀ d2, deactivateAutoReplySnapin [snapDisabledEx] d2 =
        (Except.ok true, 0)) ∧
      (∀ d2, (deactivateAutoReplySnapin [snapActiveEx] DeactResp.ok).2 +
        (deactivateAutoReplySnapin [snapDisabledEx] d2).2 = 1)) :=
  ⟨by decide, by decide, by decide, by decide, by decide,
   c8_idempotent_deactivation [snapActiveEx] [snapDisabledEx]
     snapActiveEx snapDisabledEx (by decide) (by decide) (by decide)
     (by decide) (Or.inl (by decide))⟩

/-! ### Claim C6 — depth-first top-down hierarchy creation -/

/-- C6: for the hierarchy `{"A": {"F1": ["S1","S2"]}}`, `create_trails`
creates, in order, exactly 1 capability, 1 feature and 2 subfeatures;
the capability's `parent_part` is the root part `PROD-1`, the feature's
`parent_part` is the platform id assigned to the capability (the 0th
created part), and each subfeature's `parent_part` is the id assigned to
the feature (the 1st created part) — so every parent is created before
its children, whatever ids the platform assigns and whatever owners are
drawn. -/
theorem c6_hierarchy_walk (alloc pick : Nat → String) :
    createTrailsWalk alloc pick trailsEx =
      [⟨"A", "capability", pick 0, "PROD-1", alloc 0, "capabilities"⟩,
       ⟨"F1", "feature", pick 1, alloc 0, alloc 1, "features"⟩,
       ⟨"S1", "feature", pick 2, alloc 1, alloc 2, "subfeatures"⟩,
       ⟨"S2", "feature", pick 3, alloc 1, alloc 3, "subfeatures"⟩] ∧
    ((createTrailsWalk alloc pick trailsEx).filter
      (fun p => p.bucket == "capabilities")).length = 1 ∧
    ((createTrailsWalk alloc pick trailsEx).filter
      (fun p => p.bucket == "features")).length = 1 ∧
    ((createTrailsWalk alloc pick trailsEx).filter
      (fun p => p.bucket == "subfeatures")).length = 2 :=
  ⟨rfl, rfl, rfl, rfl⟩

/-! ### Claim C5 — per-item failure isolation in the creation stages -/

/-- Auxiliary: the ticket loop on all-successful items records no failure
and one response per item. -/
theorem ticketsLoop_all_ok (attempt : TicketItem → Except String WorkResp) :
    ∀ ts : List TicketItem, (∀ t ∈ ts, (attempt t).isOk = true) →
      (ticketsLoop attempt ts).2 = [] ∧
      (ticketsLoop attempt ts).1.length = ts.length := by
  intro ts
  induction ts with
  | nil => intro _; simp [ticketsLoop]
  | cons t ts ih =>
    intro h
    have ht := h t (by simp)
    have hrest := ih (fun x hx => h x (List.mem_cons_of_mem _ hx))
    cases hat : attempt t with
    | ok r => simp [ticketsLoop, hat, hrest.1, hrest.2]
    | error e => rw [hat] at ht; simp [Except.isOk, Except.toBool] at ht

/-- Auxiliary: the ticket loop with exactly one failing item yields one
response per other item and exactly the one failure record. -/
theorem ticketsLoop_one_fail (attempt : TicketItem → Except String WorkResp)
    (bad : TicketItem) (e : String) (hbad : attempt bad = .error e) :
    ∀ pre post : List TicketItem,
      (∀ t ∈ pre, (attempt t).isOk = true) →
      (∀ t ∈ post, (attempt t).isOk = true) →
      (ticketsLoop attempt (pre ++ bad :: post)).1.length =
        pre.length + post.length ∧
      (ticketsLoop attempt (pre ++ bad :: post)).2 = [⟨bad.title, e, bad⟩] := by
  intro pre
  induction pre with
  | nil =>
    intro post _ hpost
    have hrest := ticketsLoop_all_ok attempt post hpost
    simp [ticketsLoop, hbad, hrest.1, hrest.2]
  | cons t ts ih =>
    intro post hpre hpost
    have ht := hpre t (by simp)
    have hrest := ih post (fun x hx => hpre x (by simp [hx])) hpost
    cases hat : attempt t with
    | ok r =>
      simp [ticketsLoop, hat, hrest.1, hrest.2]
      omega
    | error e2 => rw [hat] at ht; simp [Except.isOk, Except.toBool] at ht

/-- Auxiliary: the issue loop on all-successful items. -/
theorem issuesLoop_all_ok (attempt : IssueItem → Except String WorkResp) :
    ∀ ts : List IssueItem, (∀ t ∈ ts, (attempt t).isOk = true) →
      (issuesLoop attempt ts).2 = [] ∧
      (issuesLoop attempt ts).1.length = ts.length := by
  intro ts
  induction ts with
  | nil => intro _; simp [issuesLoop]
  | cons t ts ih =>
    intro h
    have ht := h t (by simp)
    have hrest := ih (fun x hx => h x (List.mem_cons_of_mem _ hx))
    cases hat : attempt t with
    | ok r => simp [issuesLoop, hat, hrest.1, hrest.2]
    | error e => rw [hat] at ht; simp [Except.isOk, Except.toBool] at ht

/-- Auxiliary: the issue loop with exactly one failing item. -/
theorem issuesLoop_one_fail (attempt : IssueItem → Except String WorkResp)
    (bad : IssueItem) (e : String) (hbad : attempt bad = .error e) :
    ∀ pre post : List IssueItem,
      (∀ t ∈ pre, (attempt t).isOk = true) →
      (∀ t ∈ post, (attempt t).isOk = true) →
      (issuesLoop attempt (pre ++ bad :: post)).1.length =
        pre.length + post.length ∧
      (issuesLoop attempt (pre ++ bad :: post)).2 = [⟨bad.title, e, bad⟩] := by
  intro pre
  induction pre with
  | nil =>
    intro post _ hpost
    have hrest := issuesLoop_all_ok attempt post hpost
    simp [issuesLoop, hbad, hrest.1, hrest.2]
  | cons t ts ih =>
    intro post hpre hpost
    have ht := hpre t (by simp)
    have hrest := ih post (fun x hx => hpre x (by simp [hx])) hpost
    cases hat : attempt t with
    | ok r =>
      simp [issuesLoop, hat, hrest.1, hrest.2]
      omega
    | error e2 => rw [hat] at ht; simp [Except.isOk, Except.toBool] at ht

/-- Auxiliary: the opportunity loop on all-successful items. -/
theorem oppsLoop_all_ok (attempt : Opp → Except String WorkResp) :
    ∀ ts : List Opp, (∀ t ∈ ts, (attempt t).isOk = true) →
      (oppsLoop attempt ts).2 = [] ∧
      (oppsLoop attempt ts).1.length = ts.length := by
  intro ts
  induction ts with
  | nil => intro _; simp [oppsLoop]
  | cons t ts ih =>
    intro h
    have ht := h t (by simp)
    have hrest := ih (fun x hx => h x (List.mem_cons_of_mem _ hx))
    cases hat : attempt t with
    | ok r => simp [oppsLoop, hat, hrest.1, hrest.2]
    | error e => rw [hat] at ht; simp [Except.isOk, Except.toBool] at ht

/-- Auxiliary: the opportunity loop with exactly one failing item. -/
theorem oppsLoop_one_fail (attempt : Opp → Except String WorkResp)
    (bad : Opp) (e : String) (hbad : attempt bad = .error e) :
    ∀ pre post : List Opp,
      (∀ t ∈ pre, (attempt t).isOk = true) →
      (∀ t ∈ post, (attempt t).isOk = true) →
      (oppsLoop attempt (pre ++ bad :: post)).1.length =
        pre.length + post.length ∧
      (oppsLoop attempt (pre ++ bad :: post)).2 = [⟨bad.otitle, e, bad⟩] := by
  intro pre
  induction pre with
  | nil =>
    intro post _ hpost
    have hrest := oppsLoop_all_ok attempt post hpost
    simp [oppsLoop, hbad, hrest.1, hrest.2]
  | cons t ts ih =>
    intro post hpre hpost
    have ht := hpre t (by simp)
    have hrest := ih post (fun x hx => hpre x (by simp [hx])) hpost
    cases hat : attempt t with
    | ok r =>
      simp [oppsLoop, hat, hrest.1, hrest.2]
      omega
    | error e2 => rw [hat] at ht; simp [Except.isOk, Except.toBool] at ht

/-- C5: in each of `create_tickets`, `create_issues` and
`create_opportunities`, when exactly one of the generated items fails at
creation, the stage returns one success per remaining item (so `N - 1`
successes), records exactly one failure entry carrying the failing item's
title, error text and original payload, persists it under the stage's
`_failed` artifact, and does not raise (the stage functions here are
total). -/
theorem c5_per_item_failure
    (ta : TicketItem → Except String WorkResp) (tpre tpost : List TicketItem)
    (tbad : TicketItem) (te : String)
    (htpre : ∀ t ∈ tpre, (ta t).isOk = true)
    (htpost : ∀ t ∈ tpost, (ta t).isOk = true)
    (htbad : ta tbad = .error te)
    (ia : IssueItem → Except String WorkResp) (ipre ipost : List IssueItem)
    (ibad : IssueItem) (ie : String)
    (hipre : ∀ t ∈ ipre, (ia t).isOk = true)
    (hipost : ∀ t ∈ ipost, (ia t).isOk = true)
    (hibad : ia ibad = .error ie)
    (oa : Opp → Except String WorkResp) (opre opost : List Opp)
    (obad : Opp) (oe : String)
    (hopre : ∀ t ∈ opre, (oa t).isOk = true)
    (hopost : ∀ t ∈ opost, (oa t).isOk = true)
    (hobad : oa obad = .error oe) :
    ((createTicketsStage ta (tpre ++ tbad :: tpost)).1.length =
        tpre.length + tpost.length ∧
      (createTicketsStage ta (tpre ++ tbad :: tpost)).2.1 =
        [⟨tbad.title, te, tbad⟩] ∧
      "tickets_failed" ∈ (createTicketsStage ta (tpre ++ tbad :: tpost)).2.2) ∧
    ((createIssuesStage ia (ipre ++ ibad :: ipost)).1.length =
        ipre.length + ipost.length ∧
      (createIssuesStage ia (ipre ++ ibad :: ipost)).2.1 =
        [⟨ibad.title, ie, ibad⟩] ∧
      "issues_failed" ∈ (createIssuesStage ia (ipre ++ ibad :: ipost)).2.2) ∧
    ((createOpportunitiesStage oa (opre ++ obad :: opost)).1.length =
        opre.length + opost.length ∧
      (createOpportunitiesStage oa (opre ++ obad :: opost)).2.1 =
        [⟨obad.otitle, oe, obad⟩] ∧
      "opportunities_failed" ∈
        (createOpportunitiesStage oa (opre ++ obad :: opost)).2.2) := by
  have ht := ticketsLoop_one_fail ta tbad te htbad tpre tpost htpre htpost
  have hi := issuesLoop_one_fail ia ibad ie hibad ipre ipost hipre hipost
  have ho := oppsLoop_one_fail oa obad oe hobad opre opost hopre hopost
  refine ⟨⟨?_, ?_, ?_⟩, ⟨?_, ?_, ?_⟩, ⟨?_, ?_, ?_⟩⟩
  · simp [createTicketsStage, ticketDetails, ht.1]
  · simp [createTicketsStage, ht.2]
  · simp [createTicketsStage, ht.2]
  · simp [createIssuesStage, hi.1]
  · simp [createIssuesStage, hi.2]
  · simp [createIssuesStage, hi.2]
  · simp [createOpportunitiesStage, ho.1]
  · simp [createOpportunitiesStage, ho.2]
  · simp [createOpportunitiesStage, ho.2]

/-- C5 witness: three concrete stages, each with exactly one failing
item. -/
theorem c5_per_item_failure_witness :
    (∀ t ∈ [ticketItemEx1], (ticketAttemptEx t).isOk = true) ∧
    (∀ t ∈ [ticketItemEx2], (ticketAttemptEx t).isOk = true) ∧
    ticketAttemptEx ticketItemBad = .error "HTTP 400 bad stage" ∧
    (∀ t ∈ ([] : List IssueItem), (issueAttemptEx t).isOk = true) ∧
    (∀ t ∈ [issueItemEx2], (issueAttemptEx t).isOk = true) ∧
    issueAttemptEx issueItemBad = .error "HTTP 400 bad part" ∧
    (∀ t ∈ [oppEx1], (oppAttemptEx t).isOk = true) ∧
    (∀ t ∈ ([] : List Opp), (oppAttemptEx t).isOk = true) ∧
    oppAttemptEx oppBadEx = .error "HTTP 400 bad account" ∧
    (((createTicketsStage ticketAttemptEx
          ([ticketItemEx1] ++ ticketItemBad :: [ticketItemEx2])).1.length =
        ([ticketItemEx1] : List TicketItem).length +
          ([ticketItemEx2] : List TicketItem).length ∧
      (createTicketsStage ticketAttemptEx
          ([ticketItemEx1] ++ ticketItemBad :: [ticketItemEx2])).2.1 =
        [⟨ticketItemBad.title, "HTTP 400 bad stage", ticketItemBad⟩] ∧
      "tickets_failed" ∈ (createTicketsStage ticketAttemptEx
          ([ticketItemEx1] ++ ticketItemBad :: [ticketItemEx2])).2.2) ∧
    ((createIssuesStage issueAttemptEx
          ([] ++ issueItemBad :: [issueItemEx2])).1.length =
        ([] : List IssueItem).length + ([issueItemEx2] : List IssueItem).length ∧
      (createIssuesStage issueAttemptEx
          ([] ++ issueItemBad :: [issueItemEx2])).2.1 =
        [⟨issueItemBad.title, "HTTP 400 bad part", issueItemBad⟩] ∧
      "issues_failed" ∈ (createIssuesStage issueAttemptEx
          ([] ++ issueItemBad :: [issueItemEx2])).2.2) ∧
    ((createOpportunitiesStage oppAttemptEx
          ([oppEx1] ++ oppBadEx :: [])).1.length =
        ([oppEx1] : List Opp).length + ([] : List Opp).length ∧
      (createOpportunitiesStage oppAttemptEx
          ([oppEx1] ++ oppBadEx :: [])).2.1 =
        [⟨oppBadEx.otitle, "HTTP 400 bad account", oppBadEx⟩] ∧
      "opportunities_failed" ∈ (createOpportunitiesStage oppAttemptEx
          ([oppEx1] ++ oppBadEx :: [])).2.2)) :=
  ⟨by decide, by decide, rfl, by decide, by decide, rfl,
   by decide, by decide, rfl,
   c5_per_item_failure ticketAttemptEx [ticketItemEx1] [ticketItemEx2]
     ticketItemBad "HTTP 400 bad stage" (by decide) (by decide) rfl
     issueAttemptEx [] [issueItemEx2] issueItemBad "HTTP 400 bad part"
     (by decide) (by decide) rfl
     oppAttemptEx [oppEx1] [] oppBadEx "HTTP 400 bad account"
     (by decide) (by decide) rfl⟩

/-! ### Claim C9 — upsell generation in `create_opportunities_payload` -/

/-- Auxiliary: `genUps` distributes over list concatenation, shifting the
cursor index. -/
theorem genUps_append (isWon : Opp → Bool) (mk : Nat → Opp → Opp) :
    ∀ (xs ys : List Opp) (i : Nat),
      genUps isWon mk i (xs ++ ys) =
        genUps isWon mk i xs ++ genUps isWon mk (i + xs.length) ys := by
  intro xs
  induction xs with
  | nil => intro ys i; simp [genUps]
  | cons x xs ih =>
    intro ys i
    have h2 : i + 1 + xs.length = i + (xs.length + 1) := by omega
    simp [genUps, ih ys (i + 1), h2, List.append_assoc]

/-- Auxiliary: `genUps` produces exactly one upsell per won item. -/
theorem genUps_length (isWon : Opp → Bool) (mk : Nat → Opp → Opp) :
    ∀ (l : List Opp) (i : Nat),
      (genUps isWon mk i l).length = l.countP isWon := by
  intro l
  induction l with
  | nil => intro i; simp [genUps]
  | cons x xs ih =>
    intro i
    by_cases h : isWon x <;> simp [genUps, h, ih, List.countP_cons]

/-- Auxiliary: every element of `genUps` is the upsell of some won item
of the scanned list. -/
theorem genUps_mem (isWon : Opp → Bool) (mk : Nat → Opp → Opp) :
    ∀ (l : List Opp) (i : Nat) (u : Opp),
      u ∈ genUps isWon mk i l →
        ∃ j x, x ∈ l ∧ isWon x = true ∧ u = mk j x := by
  intro l
  induction l with
  | nil => intro i u h; simp [genUps] at h
  | cons x xs ih =>
    intro i u h
    by_cases hw : isWon x
    · simp only [genUps, hw, if_pos, List.singleton_append, List.mem_cons] at h
      rcases h with h | h
      · exact ⟨i, x, by simp, hw, h⟩
      · obtain ⟨j, y, hy, hwy, hu⟩ := ih (i + 1) u h
        exact ⟨j, y, by simp [hy], hwy, hu⟩
    · simp only [genUps, hw, if_neg, Bool.false_eq_true, not_false_iff,
        List.nil_append] at h
      obtain ⟨j, y, hy, hwy, hu⟩ := ih (i + 1) u h
      exact ⟨j, y, by simp [hy], hwy, hu⟩

/-- Auxiliary: as long as generated upsells are never themselves won, the
cursor loop `upsellStep` (Python's iterate-while-appending `for`) appends
exactly the upsells of the won items at positions from the cursor on,
given enough fuel. -/
theorem upsellStep_spec (isWon : Opp → Bool) (mk : Nat → Opp → Opp)
    (hmk : ∀ j x, isWon (mk j x) = false) :
    ∀ (fuel : Nat) (l : List Opp) (i : Nat),
      (l.length - i) + (l.drop i).countP isWon ≤ fuel →
      upsellStep isWon mk fuel l i = l ++ genUps isWon mk i (l.drop i) := by
  intro fuel
  induction fuel with
  | zero =>
    intro l i hle
    have h2 : l.length ≤ i := by omega
    rw [List.drop_eq_nil_of_le h2]
    simp [upsellStep, genUps]
  | succ f ih =>
    intro l i hle
    rw [upsellStep]
    by_cases h : i < l.length
    · rw [dif_pos h]
      show upsellStep isWon mk f
        (if isWon (l.get ⟨i, h⟩) = true then l ++ [mk i (l.get ⟨i, h⟩)] else l)
        (i + 1) = l ++ genUps isWon mk i (l.drop i)
      have hdrop : l.drop i = l.get ⟨i, h⟩ :: l.drop (i + 1) := by
        rw [List.drop_eq_getElem_cons h]
        simp [List.get_eq_getElem]
      by_cases hw : isWon (l.get ⟨i, h⟩) = true
      · have hwe : isWon l[i] = true := by simpa using hw
        rw [if_pos hw]
        have hdrop2 : (l ++ [mk i (l.get ⟨i, h⟩)]).drop (i + 1) =
            l.drop (i + 1) ++ [mk i (l.get ⟨i, h⟩)] := by
          rw [List.drop_append_eq_append_drop,
            show i + 1 - l.length = 0 from by omega, List.drop_zero]
        have hcntdrop : (l.drop i).countP isWon =
            (l.drop (i + 1)).countP isWon + 1 := by
          rw [hdrop, List.countP_cons, if_pos hw]
        have hfuel : ((l ++ [mk i (l.get ⟨i, h⟩)]).length - (i + 1)) +
            (((l ++ [mk i (l.get ⟨i, h⟩)]).drop (i + 1)).countP isWon) ≤ f := by
          rw [hdrop2]
          simp only [List.countP_append, List.length_append, List.length_singleton]
          have hmk1 : ([mk i (l.get ⟨i, h⟩)] : List Opp).countP isWon = 0 := by
            simp [List.countP_cons, hmk]
          omega
        rw [ih _ _ hfuel, hdrop2, genUps_append, hdrop]
        have hmkgen : genUps isWon mk (i + 1 + (l.drop (i + 1)).length)
            [mk i (l.get ⟨i, h⟩)] = [] := by
          simp [genUps, hmk]
        simp [genUps, hw, hwe, hmk, hmkgen, List.append_assoc]
      · have hwf : isWon (l.get ⟨i, h⟩) = false := by
          simpa using hw
        have hwe : isWon l[i] = false := by simpa using hwf
        rw [if_neg hw]
        have hcntdrop : (l.drop i).countP isWon =
            (l.drop (i + 1)).countP isWon := by
          rw [hdrop, List.countP_cons, if_neg hw]
          omega
        have hfuel : (l.length - (i + 1)) +
            ((l.drop (i + 1)).countP isWon) ≤ f := by omega
        rw [ih _ _ hfuel, hdrop]
        simp [genUps, hwf, hwe]
    · rw [dif_neg h]
      have : l.drop i = [] := List.drop_eq_nil_of_le (by omega)
      simp [this, genUps]

/-- C9: provided the platform assigns `negotiation` and `contract` stage
ids different from the `closed_won` id (so that an upsell is never itself
`closed_won`), `create_opportunities_payload` returns the base
opportunities (one per account) followed by exactly one synthetic upsell
per `closed_won` base opportunity — `N + K` entries for `K` won bases
among `N` accounts — and each upsell keeps its base's account and owner,
has the title suffixed with ` - Upsell`, and sits in the `negotiation` or
`contract` stage; no upsell spawns a further upsell. -/
theorem c9_upsell_payload
    (stages : String → Nat) (stageChoice : Nat → Fin stageKeys.length)
    (arrChoice monthsChoice : Nat → Nat) (ownerChoice : Nat → String)
    (upArr upMonths : Nat → Nat) (upStage : Nat → Bool)
    (accounts : List Account)
    (hneg : stages "negotiation" ≠ stages "closed_won")
    (hcon : stages "contract" ≠ stages "closed_won") :
    createOpportunitiesPayload stages stageChoice arrChoice monthsChoice
        ownerChoice upArr upMonths upStage accounts =
      oppBaseList stages stageChoice arrChoice monthsChoice ownerChoice
          accounts ++
        genUps (isWonOpp stages) (mkUpsellOpp stages upArr upMonths upStage) 0
          (oppBaseList stages stageChoice arrChoice monthsChoice ownerChoice
            accounts) ∧
    (createOpportunitiesPayload stages stageChoice arrChoice monthsChoice
        ownerChoice upArr upMonths upStage accounts).length =
      accounts.length +
        (oppBaseList stages stageChoice arrChoice monthsChoice ownerChoice
          accounts).countP (isWonOpp stages) ∧
    (∀ u ∈ genUps (isWonOpp stages) (mkUpsellOpp stages upArr upMonths upStage)
        0 (oppBaseList stages stageChoice arrChoice monthsChoice ownerChoice
          accounts),
      ∃ (j : Nat) (x : Opp), x ∈ oppBaseList stages stageChoice arrChoice
          monthsChoice ownerChoice accounts ∧
        isWonOpp stages x = true ∧
        u = mkUpsellOpp stages upArr upMonths upStage j x ∧
        u.otitle = x.otitle ++ " - Upsell" ∧ u.acct = x.acct ∧
        u.owner = x.owner ∧
        (u.stageId = stages "negotiation" ∨ u.stageId = stages "contract")) := by
  have hmk : ∀ j x, isWonOpp stages (mkUpsellOpp stages upArr upMonths upStage j x) =
      false := by
    intro j x
    by_cases hb : upStage j <;>
      simp [isWonOpp, mkUpsellOpp, upStageName, hb, beq_eq_false_iff_ne] <;>
      [exact hneg; exact hcon]
  have hbaselen : (oppBaseList stages stageChoice arrChoice monthsChoice
      ownerChoice accounts).length = accounts.length := by
    simp [oppBaseList]
  have hstruct : createOpportunitiesPayload stages stageChoice arrChoice
      monthsChoice ownerChoice upArr upMonths upStage accounts =
      oppBaseList stages stageChoice arrChoice monthsChoice ownerChoice
          accounts ++
        genUps (isWonOpp stages) (mkUpsellOpp stages upArr upMonths upStage) 0
          (oppBaseList stages stageChoice arrChoice monthsChoice ownerChoice
            accounts) := by
    rw [createOpportunitiesPayload]
    have hfuel : ((oppBaseList stages stageChoice arrChoice monthsChoice
        ownerChoice accounts).length - 0) +
        (((oppBaseList stages stageChoice arrChoice monthsChoice ownerChoice
          accounts).drop 0).countP (isWonOpp stages)) ≤
        2 * (oppBaseList stages stageChoice arrChoice monthsChoice ownerChoice
          accounts).length := by
      rw [List.drop_zero]
      have := List.countP_le_length (p := isWonOpp stages)
        (l := oppBaseList stages stageChoice arrChoice monthsChoice ownerChoice
          accounts)
      omega
    rw [upsellStep_spec (isWonOpp stages)
      (mkUpsellOpp stages upArr upMonths upStage) hmk _ _ _ hfuel,
      List.drop_zero]
  refine ⟨hstruct, ?_, ?_⟩
  · rw [hstruct]
    simp [genUps_length, hbaselen]
  · intro u hu
    obtain ⟨j, x, hx, hw, hu2⟩ := genUps_mem _ _ _ _ u hu
    subst hu2
    refine ⟨j, x, hx, hw, rfl, rfl, rfl, rfl, ?_⟩
    by_cases hb : upStage j
    · left; simp [mkUpsellOpp, upStageName, hb]
    · right; simp [mkUpsellOpp, upStageName, hb]

/-- C9 witness: two accounts, the first landing in `closed_won`. -/
theorem c9_upsell_payload_witness :
    stagesEx "negotiation" ≠ stagesEx "closed_won" ∧
    stagesEx "contract" ≠ stagesEx "closed_won" ∧
    (createOpportunitiesPayload stagesEx stageChoiceEx arrChoiceEx
        monthsChoiceEx ownerChoiceEx upArrEx upMonthsEx upStageChoiceEx
        accountsEx =
      oppBaseList stagesEx stageChoiceEx arrChoiceEx monthsChoiceEx
          ownerChoiceEx accountsEx ++
        genUps (isWonOpp stagesEx)
          (mkUpsellOpp stagesEx upArrEx upMonthsEx upStageChoiceEx) 0
          (oppBaseList stagesEx stageChoiceEx arrChoiceEx monthsChoiceEx
            ownerChoiceEx accountsEx) ∧
      (createOpportunitiesPayload stagesEx stageChoiceEx arrChoiceEx
          monthsChoiceEx ownerChoiceEx upArrEx upMonthsEx upStageChoiceEx
          accountsEx).length =
        accountsEx.length +
          (oppBaseList stagesEx stageChoiceEx arrChoiceEx monthsChoiceEx
            ownerChoiceEx accountsEx).countP (isWonOpp stagesEx) ∧
      (∀ u ∈ genUps (isWonOpp stagesEx)
          (mkUpsellOpp stagesEx upArrEx upMonthsEx upStageChoiceEx) 0
          (oppBaseList stagesEx stageChoiceEx arrChoiceEx monthsChoiceEx
            ownerChoiceEx accountsEx),
        ∃ (j : Nat) (x : Opp), x ∈ oppBaseList stagesEx stageChoiceEx
            arrChoiceEx monthsChoiceEx ownerChoiceEx accountsEx ∧
          isWonOpp stagesEx x = true ∧
          u = mkUpsellOpp stagesEx upArrEx upMonthsEx upStageChoiceEx j x ∧
          u.otitle = x.otitle ++ " - Upsell" ∧ u.acct = x.acct ∧
          u.owner = x.owner ∧
          (u.stageId = stagesEx "negotiation" ∨
            u.stageId = stagesEx "contract"))) :=
  ⟨by decide, by decide,
   c9_upsell_payload stagesEx stageChoiceEx arrChoiceEx monthsChoiceEx
     ownerChoiceEx upArrEx upMonthsEx upStageChoiceEx accountsEx
     (by decide) (by decide)⟩

/-! ### Claim C1 — progress monotonicity of `create_org.main` -/

/-- C1 counterexample: the progress sequence of a concrete successful run
is not non-decreasing.  After the dev-users stage header is reported at
`current_progress = step_weight ≈ 9.09`, the stage's first internal
callback (`"Loading user data...", 0`) is remapped to
`current_progress - step_weight = 0`, strictly below the header. -/
theorem c1_claim_counterexample :
    ¬ (List.Chain' (fun a b => a ≤ b) runTraceEx ∧
        runTraceEx.getLast? = some 100) := by
  intro hc
  have h := hc.1
  norm_num [runTraceEx, mainTrace, mainSteps, traceAux, stageSeg,
    devusersSubProgress, accountsSubProgress, revusersSubProgress,
    trailsSubProgressOk, trailsTotalItems, trailsEx, ticketsSubProgress,
    issuesSubProgress, oppsSubProgress, stepWeight, List.chain'_cons,
    List.range_succ] at h

/-- Auxiliary: `stepWeight` is positive. -/
theorem stepWeight_pos : (0 : ℚ) < stepWeight := by
  norm_num [stepWeight]

/-- Auxiliary: every value reported by a run's steps stays within
`[0, 100]`, provided the running counter starts non-negative, the
remaining enabled steps fit under 100, and all internal stage reports are
percentages in `[0, 100]`. -/
theorem traceAux_bounds :
    ∀ (steps : List (Bool × List ℚ)) (cp : ℚ),
      0 ≤ cp →
      cp + stepWeight * ((steps.countP (fun s => s.1) : Nat) : ℚ) ≤ 100 →
      (∀ s ∈ steps, inRange s.2) →
      ∀ v ∈ traceAux cp steps, 0 ≤ v ∧ v ≤ 100 := by
  intro steps
  induction steps with
  | nil =>
    intro cp _ _ _ v hv
    simp [traceAux] at hv
  | cons s rest ih =>
    intro cp hcp hbound hin v hv
    obtain ⟨b, sub⟩ := s
    have hw := stepWeight_pos
    have hcrest : ((rest.countP (fun s => s.1) : Nat) : ℚ) ≥ 0 := by positivity
    rw [traceAux] at hv
    by_cases hb : b = true
    · rw [if_pos hb] at hv
      have hcount : ((((b, sub) :: rest).countP (fun s => s.1) : Nat) : ℚ) =
          ((rest.countP (fun s => s.1) : Nat) : ℚ) + 1 := by
        rw [List.countP_cons]
        simp [hb]
      have hcpw : cp + stepWeight ≤ 100 := by
        rw [hcount] at hbound
        nlinarith
      rcases List.mem_append.mp hv with hv1 | hv2
      · rw [stageSeg] at hv1
        rcases List.mem_cons.mp hv1 with rfl | hv1
        · constructor
          · linarith
          · exact hcpw
        · obtain ⟨p, hp, rfl⟩ := List.mem_map.mp hv1
          obtain ⟨hp0, hp100⟩ := hin (b, sub) (List.mem_cons_self _ _) p hp
          constructor
          · nlinarith
          · nlinarith
      · refine ih (cp + stepWeight) (by linarith) ?_
          (fun x hx => hin x (List.mem_cons_of_mem _ hx)) v hv2
        rw [hcount] at hbound
        linarith
    · rw [if_neg hb] at hv
      have hcount : ((((b, sub) :: rest).countP (fun s => s.1) : Nat) : ℚ) =
          ((rest.countP (fun s => s.1) : Nat) : ℚ) := by
        rw [List.countP_cons]
        simp [hb]
      refine ih cp hcp ?_ (fun x hx => hin x (List.mem_cons_of_mem _ hx)) v hv
      rw [hcount] at hbound
      linarith

/-- C1 (amended): for every successful run of `create_org.main`, the
final reported value is 100 and every reported value lies in `[0, 100]`;
the reported sequence need not be non-decreasing, because a stage's
header report `current_progress` exceeds the stage's subsequent internal
reports `current_progress - step_weight + p * step_weight / 100` whenever
the internal percentage `p` is below 100 (see the counterexample). -/
theorem c1_progress_amended (hasSettings deact sla crawl : Bool)
    (subDe subSla subDev subAcc subRev subTra subTick subIss subOpp : List ℚ)
    (hDe : inRange subDe) (hSla : inRange subSla) (hDev : inRange subDev)
    (hAcc : inRange subAcc) (hRev : inRange subRev) (hTra : inRange subTra)
    (hTick : inRange subTick) (hIss : inRange subIss) (hOpp : inRange subOpp) :
    (mainTrace hasSettings deact sla crawl subDe subSla subDev subAcc subRev
      subTra subTick subIss subOpp).getLast? = some 100 ∧
    ∀ v ∈ mainTrace hasSettings deact sla crawl subDe subSla subDev subAcc
      subRev subTra subTick subIss subOpp, 0 ≤ v ∧ v ≤ 100 := by
  constructor
  · rw [mainTrace, show (0 : ℚ) :: traceAux 0 (mainSteps hasSettings deact sla
      crawl subDe subSla subDev subAcc subRev subTra subTick subIss subOpp) ++
      [100] = ((0 : ℚ) :: traceAux 0 (mainSteps hasSettings deact sla crawl
      subDe subSla subDev subAcc subRev subTra subTick subIss subOpp)) ++
      [100] from rfl, List.getLast?_concat]
  · intro v hv
    rw [mainTrace] at hv
    rcases List.mem_cons.mp hv with rfl | hv
    · norm_num
    · rcases List.mem_append.mp hv with hv | hv
      · refine traceAux_bounds _ 0 le_rfl ?_ ?_ v hv
        · have hle : (mainSteps hasSettings deact sla crawl subDe subSla subDev
              subAcc subRev subTra subTick subIss subOpp).countP
              (fun s => s.1) ≤ 11 := by
            have := List.countP_le_length (p := fun s : Bool × List ℚ => s.1)
              (l := mainSteps hasSettings deact sla crawl subDe subSla subDev
                subAcc subRev subTra subTick subIss subOpp)
            simpa [mainSteps] using this
          have hle2 : (((mainSteps hasSettings deact sla crawl subDe subSla
              subDev subAcc subRev subTra subTick subIss subOpp).countP
              (fun s => s.1) : Nat) : ℚ) ≤ 11 := by
            exact_mod_cast hle
          have hws : stepWeight = 100 / 11 := rfl
          rw [hws]
          linarith [hle2]
        · intro s hs
          simp only [mainSteps, List.mem_cons, List.not_mem_nil, or_false] at hs
          rcases hs with rfl | rfl | rfl | rfl | rfl | rfl | rfl | rfl | rfl |
            rfl | rfl
          · exact hDe
          · exact hSla
          · intro p hp; simp at hp
          · exact hDev
          · exact hAcc
          · exact hRev
          · exact hTra
          · intro p hp; simp at hp
          · exact hTick
          · exact hIss
          · exact hOpp
      · rcases List.mem_singleton.mp hv with rfl
        norm_num

/-- C1 witness: the successful one-of-everything run. -/
theorem c1_progress_amended_witness :
    inRange (devusersSubProgress 1) ∧ inRange (accountsSubProgress 1) ∧
    inRange (revusersSubProgress 1) ∧ inRange (trailsSubProgressOk trailsEx) ∧
    inRange (ticketsSubProgress 4 1) ∧ inRange (issuesSubProgress 4 1) ∧
    inRange (oppsSubProgress 1) ∧
    (runTraceEx.getLast? = some 100 ∧
      ∀ v ∈ runTraceEx, 0 ≤ v ∧ v ≤ 100) := by
  have h1 : inRange (devusersSubProgress 1) := by
    intro p hp
    norm_num [devusersSubProgress, List.range_succ] at hp
    rcases hp with rfl | rfl | rfl | rfl <;> norm_num
  have h2 : inRange (accountsSubProgress 1) := by
    intro p hp
    norm_num [accountsSubProgress, List.range_succ] at hp
    rcases hp with rfl | rfl | rfl | rfl <;> norm_num
  have h3 : inRange (revusersSubProgress 1) := by
    intro p hp
    norm_num [revusersSubProgress, List.range_succ] at hp
    rcases hp with rfl | rfl | rfl | rfl <;> norm_num
  have h4 : inRange (trailsSubProgressOk trailsEx) := by
    intro p hp
    norm_num [trailsSubProgressOk, trailsTotalItems, trailsEx,
      List.range_succ] at hp
    rcases hp with rfl | rfl | rfl | rfl | rfl | rfl | rfl | rfl <;> norm_num
  have h5 : inRange (ticketsSubProgress 4 1) := by
    intro p hp
    norm_num [ticketsSubProgress, List.range_succ] at hp
    rcases hp with rfl | rfl | rfl | rfl | rfl | rfl | rfl | rfl | rfl <;>
      norm_num
  have h6 : inRange (issuesSubProgress 4 1) := by
    intro p hp
    norm_num [issuesSubProgress, List.range_succ] at hp
    rcases hp with rfl | rfl | rfl | rfl | rfl | rfl | rfl | rfl | rfl <;>
      norm_num
  have h7 : inRange (oppsSubProgress 1) := by
    intro p hp
    norm_num [oppsSubProgress, List.range_succ] at hp
    rcases hp with rfl | rfl | rfl | rfl <;> norm_num
  have hnil : inRange ([] : List ℚ) := by intro p hp; simp at hp
  exact ⟨h1, h2, h3, h4, h5, h6, h7,
    c1_progress_amended true false false false [] [] (devusersSubProgress 1)
      (accountsSubProgress 1) (revusersSubProgress 1)
      (trailsSubProgressOk trailsEx) (ticketsSubProgress 4 1)
      (issuesSubProgress 4 1) (oppsSubProgress 1)
      hnil hnil h1 h2 h3 h4 h5 h6 h7⟩

/-! ### Claim C3 — progress on stage failure -/

/-- C3 counterexample: in a concrete run failing inside `create_tickets`,
the last value the callback receives (the header value `current_progress`
reported by `main`'s error handler) differs from the last value reported
before the failure (the stage's last internal report). -/
theorem c3_freeze_counterexample :
    ¬ (runTraceFailEx.getLast? = runTraceFailPreEx.getLast?) := by
  norm_num [runTraceFailEx, runTraceFailPreEx, mainTraceFailAt,
    mainTraceFailPre, ticketsFailDone, traceAux, stageSeg,
    devusersSubProgress, accountsSubProgress, revusersSubProgress,
    trailsSubProgressOk, trailsTotalItems, trailsEx, stepWeight,
    List.range_succ, List.getLast?]

/-- C3 (amended): when a sub-reporting stage fails, the callback receives
two further reports: the stage's own `except` handler reports internal
percentage 0, which maps to `current_progress - step_weight` — a reset
that can undercut the stage's earlier reports — and then `main`'s handler
reports the header value `current_progress` and re-raises.  So the final
reported value is the failing stage's header value
(`step_weight * completed_enabled_steps + step_weight`), not the last
value reported before the failure. -/
theorem c3_fail_trace_amended (done : List (Bool × List ℚ))
    (partialSub : List ℚ) :
    (mainTraceFailAt done partialSub).getLast? =
      some (stepWeight * ((done.countP (fun s => s.1) : Nat) : ℚ) +
        stepWeight) ∧
    (mainTraceFailAt done partialSub).dropLast.getLast? =
      some (stepWeight * ((done.countP (fun s => s.1) : Nat) : ℚ)) := by
  have hsplit : mainTraceFailAt done partialSub =
      ((0 : ℚ) :: (traceAux 0 done ++
        stageSeg (stepWeight * ((done.countP (fun s => s.1) : Nat) : ℚ) +
          stepWeight) (partialSub ++ [0]))) ++
        [stepWeight * ((done.countP (fun s => s.1) : Nat) : ℚ) + stepWeight] := by
    simp [mainTraceFailAt, List.append_assoc]
  constructor
  · rw [hsplit, List.getLast?_concat]
  · rw [hsplit, List.dropLast_concat]
    have hseg : (0 : ℚ) :: (traceAux 0 done ++
        stageSeg (stepWeight * ((done.countP (fun s => s.1) : Nat) : ℚ) +
          stepWeight) (partialSub ++ [0])) =
        ((0 : ℚ) :: (traceAux 0 done ++
          ((stepWeight * ((done.countP (fun s => s.1) : Nat) : ℚ) +
            stepWeight) :: partialSub.map (fun p =>
              stepWeight * ((done.countP (fun s => s.1) : Nat) : ℚ) +
                stepWeight - stepWeight + p * stepWeight / 100)))) ++
          [stepWeight * ((done.countP (fun s => s.1) : Nat) : ℚ) + stepWeight -
            stepWeight + 0 * stepWeight / 100] := by
      simp [stageSeg, List.map_append, List.append_assoc]
    rw [hseg, List.getLast?_concat]
    norm_num

end DemoGen
